import Mathlib

/-!
# Verification of the ParaBank page-object suite's account logic

Shallow embedding of the data-processing logic of
`src/pages/new_account_page.py` (`NewAccountPage.calculations`,
`NewAccountPage.transfer_funds`, `NewAccountPage.create_savings_account`,
`NewAccountPage.pay_bill`) and
`src/constants/application_constants.py` (`load_demo_credentials`).

The browser-facing layer is abstracted away: `calculations` receives the
table snapshot `all_td_values : List (List String)` that the Python code
scrapes from the accounts-overview table, `create_savings_account`
receives the fetched list of activity links, `transfer_funds` receives
the account-id list plus a callback standing for the
create-account-then-recalculate recovery (source lines 142-144), and
`pay_bill` returns the trace of page interactions it would perform.

Python exceptions are modelled with `Except PyErr`; Python `float` values
are modelled exactly as rationals (`ℚ`).  All balance strings handled by
the code are decimal literals, so exact rational arithmetic matches the
intended decimal semantics; binary floating-point rounding is out of
scope of this model.
-/

namespace ParaBank

/-- Python exceptions that the modelled code can raise:
`ValueError` from `float(...)`, `AssertionError` from `assert`, and the
bare `Exception` raised by `create_savings_account`. -/
inductive PyErr where
  | valueError
  | assertionError
  | exception
deriving DecidableEq, Repr

/-- Model of Python `s.replace(c, '')` for a single-character pattern:
every occurrence of the character is removed. -/
def removeChar (c : Char) (s : String) : String :=
  String.mk (s.data.filter (fun x => x ≠ c))

/-- Model of `value.replace('$', '').replace(',', '')` (source lines
110, 112, 120): strip the currency symbol, then the grouping commas. -/
def stripMoney (s : String) : String :=
  removeChar ',' (removeChar '$' s)

/-- Model of Python `str.isdigit` for the ASCII strings this suite
handles: non-empty and every character a decimal digit.  (Python also
accepts further Unicode digit characters; they do not occur here.) -/
def pyIsDigit (s : String) : Bool :=
  !s.data.isEmpty && s.data.all Char.isDigit

/-- The numeric-balance guard of source line 112:
`value.replace('$','').replace(',','').replace('.','').isdigit()`. -/
def pyGuard (v : String) : Bool :=
  pyIsDigit (removeChar '.' (stripMoney v))

/-- Split a character list at every occurrence of `c`, keeping empty
segments, as Python `str.split(sep)` does for a one-character `sep`. -/
def splitOnChar (c : Char) : List Char → List (List Char)
  | [] => [[]]
  | x :: xs =>
    match splitOnChar c xs with
    | [] => [[x]]
    | h :: t => if x = c then [] :: h :: t else (x :: h) :: t

/-- Value of a (possibly empty) list of decimal digit characters. -/
def digitsToNat (cs : List Char) : Nat :=
  cs.foldl (fun n c => 10 * n + (c.toNat - 48)) 0

/-- Unsigned part of the `float` grammar: digits with at most one
decimal point and at least one digit. -/
def pyFloatUnsigned (cs : List Char) : Option ℚ :=
  match splitOnChar '.' cs with
  | [a] =>
    if !a.isEmpty && a.all Char.isDigit then some ((digitsToNat a : ℚ))
    else none
  | [a, b] =>
    if (!a.isEmpty || !b.isEmpty) && a.all Char.isDigit && b.all Char.isDigit then
      some ((digitsToNat a : ℚ) + (digitsToNat b : ℚ) / (10 : ℚ) ^ b.length)
    else none
  | _ => none

/-- Model of Python `float(s)` on the decimal-literal fragment of its
grammar: optional sign, digits, at most one decimal point.  (The exotic
forms `float` also accepts — exponents, `inf`, `nan`, underscores,
surrounding whitespace — do not occur in this suite and are modelled as
parse failures.)  `none` models a raised `ValueError`. -/
def pyFloat? (s : String) : Option ℚ :=
  match s.data with
  | '-' :: rest => (pyFloatUnsigned rest).map (fun q => -q)
  | '+' :: rest => pyFloatUnsigned rest
  | cs => pyFloatUnsigned cs

/-- Source lines 99-102: `account_ids = [item[0] for item in
all_td_values if item and item[0] and item[0].isdigit()]`.  Note the
comprehension ranges over every row, the totals row included. -/
def account_ids (rows : List (List String)) : List String :=
  (rows.filter (fun item =>
      !item.isEmpty && !(item.headD "").data.isEmpty && pyIsDigit (item.headD ""))).map
    (fun item => item.headD "")

/-- Source lines 104-107: `middle_values = [item[1] for item in
all_td_values if len(item) > 1 and item[1] not in ['Total', '\xa0']]`. -/
def middle_values (rows : List (List String)) : List String :=
  rows.filterMap (fun item =>
    match item with
    | _ :: c1 :: _ => if c1 = "Total" ∨ c1 = "\u00A0" then none else some c1
    | _ => none)

/-- Source lines 109-113 applied to a list of balance cells, in order:
cells failing the digit guard are skipped; a guard-passing cell is fed
to `float`, whose failure (more than one decimal point) raises
`ValueError`. -/
def parseCells : List String → Except PyErr (List ℚ)
  | [] => Except.ok []
  | v :: vs =>
    if pyGuard v then
      match pyFloat? (stripMoney v) with
      | some q => (parseCells vs).map (fun l => q :: l)
      | none => Except.error PyErr.valueError
    else parseCells vs

/-- Source lines 109-113: `numeric_values`, computed from
`middle_values[:-1]` — all but the last element of the filtered list. -/
def numeric_values (rows : List (List String)) : Except PyErr (List ℚ) :=
  parseCells ((middle_values rows).dropLast)

/-- `NewAccountPage.calculations` (source lines 95-124) on the scraped
table snapshot.  `Except.ok` carries the returned `account_ids`;
`Except.error` models a raised `ValueError` (non-numeric `float`
argument) or `AssertionError` (balance mismatch, line 122). -/
def calculations (rows : List (List String)) : Except PyErr (List String) :=
  if rows.isEmpty then Except.ok []
  else
    match numeric_values rows with
    | Except.error e => Except.error e
    | Except.ok nums =>
      if 1 < rows.length then
        match rows.getLastD [] with
        | _ :: c1 :: _ =>
          match pyFloat? (stripMoney c1) with
          | none => Except.error PyErr.valueError
          | some expected_total =>
            if |nums.sum - expected_total| < 1 / 100 then Except.ok (account_ids rows)
            else Except.error PyErr.assertionError
        | _ => Except.ok (account_ids rows)
      else Except.ok (account_ids rows)

/-- Outcome of `NewAccountPage.transfer_funds` as far as account
selection is concerned: either a transfer of the fixed $1000 amount
between two selected accounts, or an early return without a transfer
(source lines 146-147 and 150-151). -/
inductive TransferPlan where
  | transfer (fromAccount toAccount : String)
  | needsMoreAccounts
deriving DecidableEq, Repr

/-- `NewAccountPage.transfer_funds` (source lines 126-165).  `recover`
stands for the recovery of lines 142-144 (`create_savings_account`
followed by a fresh `calculations` snapshot); the source invokes it once
when fewer than two ids are on hand.  The two early `return`s (lines
146-147, 150-151) are both modelled as `needsMoreAccounts`; the second
length check of line 150 is unreachable after a successful recovery and
collapses away. -/
def transfer_funds (accountIds : List String) (recover : Unit → List String) :
    TransferPlan :=
  if accountIds.length < 2 then
    let new_account_ids := recover ()
    if new_account_ids.length < 2 then TransferPlan.needsMoreAccounts
    else
      match new_account_ids with
      | a :: b :: _ => TransferPlan.transfer a b
      | _ => TransferPlan.needsMoreAccounts
  else
    match accountIds with
    | a :: b :: _ => TransferPlan.transfer a b
    | _ => TransferPlan.needsMoreAccounts

/-- Fuelled splitter underlying `pySplit`; the fuel only serves
termination and is never exhausted when it starts at the input length
plus one and the pattern is non-empty. -/
def splitOnSeqFuel (pat : List Char) : Nat → List Char → List (List Char)
  | 0, cs => [cs]
  | Nat.succ fuel, cs =>
    match cs with
    | [] => [[]]
    | x :: xs =>
      if pat.isPrefixOf (x :: xs) then
        [] :: splitOnSeqFuel pat fuel (List.drop (pat.length - 1) xs)
      else
        match splitOnSeqFuel pat fuel xs with
        | [] => [[x]]
        | h :: t => (x :: h) :: t

/-- Model of Python `s.split(pat)` for a non-empty pattern: split at
every non-overlapping occurrence, left to right, keeping empty
segments. -/
def pySplit (pat s : String) : List String :=
  (splitOnSeqFuel pat.data (s.data.length + 1) s.data).map String.mk

/-- Model of Python `pat in s` for a non-empty pattern. -/
def pyIn (pat s : String) : Bool :=
  1 < (pySplit pat s).length

/-- The account-id extraction of `NewAccountPage.create_savings_account`
(source lines 55-65), given the fetched list of `activity.htm` link
targets: raise when the list is empty (line 59), else take the last link
and return `last_link.split("id=")[1] if "id=" in last_link else ""`
(line 63). -/
def create_savings_account (activity_links : List String) : Except PyErr String :=
  match activity_links.getLast? with
  | none => Except.error PyErr.exception
  | some last_link =>
    Except.ok (if pyIn "id=" last_link then (pySplit "id=" last_link).getD 1 ""
               else "")

/-- Follows claim C8's words, not the source: the substring of `s`
following the first occurrence of `pat` (empty when `pat` does not
occur in `s`). -/
def substringFollowing (pat s : String) : String :=
  match pySplit pat s with
  | [] => ""
  | _ :: tparts => String.intercalate pat tparts

/-- Model of the JSON values `json.load` can produce. -/
inductive PyVal where
  | pnone
  | pbool (b : Bool)
  | pnum (q : ℚ)
  | pstr (s : String)
  | parr (xs : List PyVal)
  | pobj (kvs : List (String × PyVal))

/-- Python truthiness of a JSON value. -/
def pyTruthy : PyVal → Bool
  | PyVal.pnone => false
  | PyVal.pbool b => b
  | PyVal.pnum q => decide (q ≠ 0)
  | PyVal.pstr s => !s.data.isEmpty
  | PyVal.parr xs => !xs.isEmpty
  | PyVal.pobj kvs => !kvs.isEmpty

/-- Decimal digits of `n`, most significant first (fuelled). -/
def natReprAux : Nat → Nat → List Char
  | 0, _ => []
  | Nat.succ fuel, n =>
    if n = 0 then []
    else natReprAux fuel (n / 10) ++ [Char.ofNat (48 + n % 10)]

/-- Decimal rendering of a natural number. -/
def natRepr (n : Nat) : String :=
  if n = 0 then "0" else String.mk (natReprAux (n + 1) n)

/-- Decimal rendering of an integer. -/
def intRepr (i : Int) : String :=
  if i < 0 then String.mk ('-' :: (natRepr i.natAbs).data) else natRepr i.natAbs

/-- Model of Python `str()` on JSON values.  It is exact on strings,
which is the only case the credentials file is meant to contain; the
renderings of numbers and containers are abbreviated (the claims rely
only on their being non-empty). -/
def pyStr : PyVal → String
  | PyVal.pnone => "None"
  | PyVal.pbool true => "True"
  | PyVal.pbool false => "False"
  | PyVal.pnum q => intRepr q.num ++ (if q.den = 1 then "" else "/" ++ natRepr q.den)
  | PyVal.pstr s => s
  | PyVal.parr _ => "[...]"
  | PyVal.pobj _ => "\x7b...\x7d"

/-- Model of `dict.get` on a JSON object: the value of the last binding
of the key (later duplicate keys override earlier ones in `json.load`),
`none` when absent. -/
def jsonGet (kvs : List (String × PyVal)) (k : String) : Option PyVal :=
  (kvs.reverse.find? (fun kv => kv.fst == k)).map Prod.snd

/-- Truthiness of `dict.get`: a missing key yields Python `None`,
which is falsy. -/
def pyTruthyOpt : Option PyVal → Bool
  | Option.none => false
  | some v => pyTruthy v

/-- Abstraction of the file-system interaction of `load_demo_credentials`
(source lines 16-23): the credentials file may be absent
(`os.path.exists` false), opening or JSON-decoding it may raise, or it
yields a parsed JSON value. -/
inductive FsOutcome where
  | missing
  | raisesEarly
  | loaded (v : PyVal)

/-- The username/password dictionary returned by
`load_demo_credentials`. -/
structure Credentials where
  username : String
  password : String
deriving DecidableEq, Repr

/-- `load_demo_credentials` (source lines 9-38).  A non-dict JSON value
makes `credentials.get` raise `AttributeError`, which the blanket
`except Exception` turns into the default; the truthiness test models
line 26 and the `str` conversions model lines 28-29. -/
def load_demo_credentials (o : FsOutcome) : Credentials :=
  match o with
  | FsOutcome.missing => ⟨"john", "demo"⟩
  | FsOutcome.raisesEarly => ⟨"john", "demo"⟩
  | FsOutcome.loaded v =>
    match v with
    | PyVal.pobj kvs =>
      if pyTruthyOpt (jsonGet kvs "username") && pyTruthyOpt (jsonGet kvs "password") then
        ⟨pyStr ((jsonGet kvs "username").getD PyVal.pnone),
         pyStr ((jsonGet kvs "password").getD PyVal.pnone)⟩
      else ⟨"john", "demo"⟩
    | _ => ⟨"john", "demo"⟩

/-- A page interaction performed by `pay_bill` (prints are not page
interactions and are not recorded). -/
inductive PageAction where
  | click (selector : String)
  | fill (selector value : String)
  | pressKey (key : String)
  | typeText (text : String)
  | selectOption (selector value : String)
  | screenshot (path : String)
  | waitForLoadState (state : String)
deriving DecidableEq, Repr

/-- How the guarded phone-field interaction of `pay_bill` (source lines
195-207) turns out: the field is visible, it is not visible (keyboard
fallback), or locating/filling it raises. -/
inductive PhoneFieldOutcome where
  | visible
  | notVisible
  | raisesError
deriving DecidableEq, Repr

/-- `NewAccountPage.pay_bill` (source lines 167-217) as the list of page
interactions it performs, in order. -/
def pay_bill (accountIds : List String) (phone : PhoneFieldOutcome) :
    List PageAction :=
  match accountIds with
  | [] => []
  | from_account :: _ =>
    [PageAction.click "text=Bill Pay",
     PageAction.fill "input[name=\"payee.name\"]" "Electricity Company",
     PageAction.fill "input[name=\"payee.address.street\"]" "123 Main St",
     PageAction.fill "input[name=\"payee.address.city\"]" "New York",
     PageAction.fill "input[name=\"payee.address.state\"]" "NY",
     PageAction.fill "input[name=\"payee.address.zipCode\"]" "10001"] ++
    (match phone with
     | PhoneFieldOutcome.visible =>
       [PageAction.fill "input[name=\"phoneNumber\"]" "1234567890"]
     | PhoneFieldOutcome.notVisible =>
       [PageAction.pressKey "Tab", PageAction.typeText "1234567890"]
     | PhoneFieldOutcome.raisesError => []) ++
    (match phone with
     | PhoneFieldOutcome.raisesError => [PageAction.screenshot "phone_field_error.png"]
     | _ =>
       [PageAction.selectOption "select[name=\"fromAccountId\"]" from_account,
        PageAction.fill "input[name=\"amount\"]" "500",
        PageAction.click "input[value=\"Send Payment\"]",
        PageAction.waitForLoadState "networkidle"])

/-- Follows the spec's partition rule (claims C2, C3, C7), not the
source: the data rows are all rows but the last when the sequence has
more than one row, and all rows otherwise. -/
def dataRows (rows : List (List String)) : List (List String) :=
  if 1 < rows.length then rows.dropLast else rows

/-- Follows claim C3's words, not the source: the first cells of the
data rows that are syntactically non-negative integers, in input
order. -/
def claimIdentifierList (rows : List (List String)) : List String :=
  (dataRows rows).filterMap (fun item =>
    match item with
    | c0 :: _ => if pyIsDigit c0 then some c0 else none
    | [] => none)

/-- Follows claim C2's words, not the source: the sum of the parsed
second cells of the data rows, skipping the placeholder and `Total`
cells and any cell that stays non-numeric after stripping. -/
def claimBalanceSum (rows : List (List String)) : ℚ :=
  ((dataRows rows).filterMap (fun item =>
    match item with
    | _ :: c1 :: _ =>
      if c1 = "Total" ∨ c1 = "\u00A0" then none
      else pyFloat? (stripMoney c1)
    | _ => none)).sum

/-- The identifier list the source actually produces, stated row-wise:
the digit-string first cells of every row of the snapshot, the totals
row included. -/
def allRowsIdentifierList (rows : List (List String)) : List String :=
  rows.filterMap (fun item =>
    match item with
    | c0 :: _ => if pyIsDigit c0 then some c0 else none
    | [] => none)

/-- The balance sum the source actually computes, stated cell-wise: the
guard-passing cells among all but the last collected balance cell. -/
def codeBalanceSum (rows : List (List String)) : ℚ :=
  (((middle_values rows).dropLast).filterMap (fun v =>
    if pyGuard v then pyFloat? (stripMoney v) else none)).sum

/-! ## Helper lemmas -/

theorem middle_values_append (xs ys : List (List String)) :
    middle_values (xs ++ ys) = middle_values xs ++ middle_values ys :=
  List.filterMap_append xs ys _

theorem parseCells_append (xs ys : List String) :
    parseCells (xs ++ ys) =
      (parseCells xs).bind (fun a => (parseCells ys).map (fun b => a ++ b)) := by
  induction xs with
  | nil =>
    cases h : parseCells ys <;> simp [parseCells, Except.bind, Except.map, h]
  | cons v vs ih =>
    simp only [List.cons_append, parseCells]
    cases hg : pyGuard v
    · simpa using ih
    · cases hf : pyFloat? (stripMoney v) with
      | none => simp [Except.bind]
      | some q =>
        simp only [List.append_eq]
        rw [ih]
        cases hvs : parseCells vs <;> cases hys : parseCells ys <;>
          simp [Except.bind, Except.map]

theorem parseCells_ok (cs : List String) (nums : List ℚ)
    (h : parseCells cs = Except.ok nums) :
    nums = cs.filterMap (fun v => if pyGuard v then pyFloat? (stripMoney v) else none) := by
  induction cs generalizing nums with
  | nil =>
    simp only [parseCells] at h
    injection h with h'
    simp [← h']
  | cons v vs ih =>
    simp only [parseCells] at h
    cases hg : pyGuard v
    · rw [hg] at h
      simp only [Bool.false_eq_true, if_false] at h
      simp [List.filterMap_cons, hg, ih nums h]
    · rw [hg] at h
      simp only [if_true] at h
      cases hf : pyFloat? (stripMoney v) with
      | none => rw [hf] at h; simp at h
      | some q =>
        rw [hf] at h
        cases hvs : parseCells vs with
        | error e => rw [hvs] at h; simp [Except.map] at h
        | ok l =>
          rw [hvs] at h
          simp only [Except.map] at h
          injection h with h'
          simp [List.filterMap_cons, hg, hf, ← h', ih l hvs]

theorem calculations_check (rows : List (List String)) (c0 c1 : String)
    (rest : List String) (t : ℚ) (nums : List ℚ)
    (hlen : 1 < rows.length)
    (hlast : rows.getLast? = some (c0 :: c1 :: rest))
    (ht : pyFloat? (stripMoney c1) = some t)
    (hnums : numeric_values rows = Except.ok nums) :
    calculations rows =
      (if |nums.sum - t| < 1 / 100 then Except.ok (account_ids rows)
       else Except.error PyErr.assertionError) := by
  have hne : rows.isEmpty = false := by
    cases rows with
    | nil => simp at hlen
    | cons a l => rfl
  have hlastD : rows.getLastD [] = c0 :: c1 :: rest := by
    rw [List.getLastD_eq_getLast?, hlast]
    rfl
  simp only [calculations, hne, Bool.false_eq_true, if_false, hnums, if_pos hlen,
    hlastD, ht]

theorem calculations_short (rows : List (List String)) (h : rows.length ≤ 1) :
    calculations rows = Except.ok (account_ids rows) := by
  match rows with
  | [] => simp [calculations, account_ids]
  | [r] =>
    have hmv : (middle_values [r]).dropLast = [] := by
      have hlen : (middle_values [r]).length ≤ 1 := by
        simpa using List.length_filterMap_le _ [r]
      match hm : middle_values [r] with
      | [] => rfl
      | [x] => rfl
      | x :: y :: t => rw [hm] at hlen; simp at hlen
    have hnv : numeric_values [r] = Except.ok [] := by
      simp [numeric_values, hmv, parseCells]
    simp [calculations, hnv]
  | r1 :: r2 :: rs => simp at h

theorem calculations_ok_ids (rows : List (List String)) (ids : List String)
    (h : calculations rows = Except.ok ids) : ids = account_ids rows := by
  unfold calculations at h
  split at h
  next hempty =>
    have hrows : rows = [] := by
      cases rows with
      | nil => rfl
      | cons a l => simp at hempty
    subst hrows
    injection h with h'
    simpa [account_ids] using h'.symm
  next =>
    split at h
    next => simp at h
    next nums hnv =>
      split at h
      · split at h
        · split at h
          · simp at h
          · split at h
            · injection h with h'
              exact h'.symm
            · simp at h
        · injection h with h'
          exact h'.symm
      · injection h with h'
        exact h'.symm

theorem account_ids_eq_allRows (rows : List (List String)) :
    account_ids rows = allRowsIdentifierList rows := by
  induction rows with
  | nil => rfl
  | cons r rs ih =>
    cases r with
    | nil =>
      simpa [account_ids, allRowsIdentifierList, List.filter_cons,
        List.filterMap_cons] using ih
    | cons c0 cs =>
      simp only [account_ids, allRowsIdentifierList, List.filter_cons,
        List.filterMap_cons, List.headD_cons, List.isEmpty_cons] at ih ⊢
      rcases Bool.eq_false_or_eq_true (pyIsDigit c0) with hd | hd
      · have hne : c0.data ≠ [] := by
          intro h0
          simp only [pyIsDigit, h0] at hd
          simp at hd
        simp [hd, hne]
        simpa using ih
      · simp only [hd, Bool.and_false, Bool.false_eq_true, if_false]
        simpa using ih

theorem calculations_ok_inv (rows : List (List String)) (c0 c1 : String)
    (rest : List String) (ids : List String)
    (hlen : 1 < rows.length)
    (hlast : rows.getLast? = some (c0 :: c1 :: rest))
    (hok : calculations rows = Except.ok ids) :
    ∃ t nums, pyFloat? (stripMoney c1) = some t
      ∧ numeric_values rows = Except.ok nums ∧ |nums.sum - t| < 1 / 100 := by
  have hne : rows.isEmpty = false := by
    cases rows with
    | nil => simp at hlen
    | cons a l => rfl
  have hlastD : rows.getLastD [] = c0 :: c1 :: rest := by
    rw [List.getLastD_eq_getLast?, hlast]
    rfl
  cases hnv : numeric_values rows with
  | error e =>
    simp only [calculations, hne, Bool.false_eq_true, if_false, hnv] at hok
    simp at hok
  | ok nums =>
    cases hf : pyFloat? (stripMoney c1) with
    | none =>
      simp only [calculations, hne, Bool.false_eq_true, if_false, hnv, if_pos hlen,
        hlastD, hf] at hok
      simp at hok
    | some t =>
      simp only [calculations, hne, Bool.false_eq_true, if_false, hnv, if_pos hlen,
        hlastD, hf] at hok
      by_cases htol : |nums.sum - t| < 1 / 100
      · exact ⟨t, nums, rfl, rfl, htol⟩
      · rw [if_neg htol] at hok
        simp at hok

theorem parseCells_middle_ok (A B : List String) (x : String) (qx : ℚ)
    (nums : List ℚ)
    (hg : pyGuard x = true) (hv : pyFloat? (stripMoney x) = some qx)
    (h : parseCells (A ++ x :: B) = Except.ok nums) :
    ∃ as bs, parseCells A = Except.ok as ∧ parseCells B = Except.ok bs
      ∧ nums = as ++ qx :: bs := by
  rw [parseCells_append] at h
  cases hA : parseCells A with
  | error e => rw [hA] at h; simp [Except.bind] at h
  | ok as =>
    rw [hA] at h
    simp only [Except.bind] at h
    rw [show parseCells (x :: B) = (parseCells B).map (fun l => qx :: l) from by
      simp [parseCells, hg, hv]] at h
    cases hB : parseCells B with
    | error e => rw [hB] at h; simp [Except.map] at h
    | ok bs =>
      rw [hB] at h
      simp only [Except.map] at h
      injection h with h2
      exact ⟨as, bs, rfl, rfl, h2.symm⟩

theorem parseCells_middle_mk (A B : List String) (x : String) (qx : ℚ)
    (as bs : List ℚ)
    (hg : pyGuard x = true) (hv : pyFloat? (stripMoney x) = some qx)
    (hA : parseCells A = Except.ok as) (hB : parseCells B = Except.ok bs) :
    parseCells (A ++ x :: B) = Except.ok (as ++ qx :: bs) := by
  rw [parseCells_append, hA]
  simp [parseCells, hg, hv, hB, Except.bind, Except.map]

theorem string_ne_empty_of_data (s : String) (h : s.data ≠ []) : s ≠ "" := by
  intro hc
  exact h (by rw [hc])

theorem natReprAux_ne_nil (n : Nat) (h : n ≠ 0) : natReprAux (n + 1) n ≠ [] := by
  simp only [natReprAux]
  rw [if_neg h]
  simp

theorem natRepr_data_ne_nil (n : Nat) : (natRepr n).data ≠ [] := by
  unfold natRepr
  by_cases h : n = 0
  · rw [if_pos h]
    decide
  · rw [if_neg h]
    simpa using natReprAux_ne_nil n h

theorem intRepr_data_ne_nil (i : Int) : (intRepr i).data ≠ [] := by
  unfold intRepr
  by_cases h : i < 0
  · rw [if_pos h]
    simp
  · rw [if_neg h]
    exact natRepr_data_ne_nil _

theorem pyStr_data_ne_nil (v : PyVal) (h : pyTruthy v = true) :
    (pyStr v).data ≠ [] := by
  cases v with
  | pnone => simp [pyTruthy] at h
  | pbool b =>
    cases b
    · simp [pyTruthy] at h
    · simp [pyStr]
  | pnum q =>
    intro hc
    apply intRepr_data_ne_nil q.num
    have hdata : (intRepr q.num).data ++
        (if q.den = 1 then "" else "/" ++ natRepr q.den).data = [] := by
      simpa [pyStr, String.data_append] using hc
    exact (List.append_eq_nil.mp hdata).1
  | pstr s =>
    simp only [pyStr]
    intro hc
    simp [pyTruthy, hc] at h
  | parr xs =>
    simp only [pyStr]
    decide
  | pobj kvs =>
    simp only [pyStr]
    decide

/-! ## Claims -/

/-- C1: when the snapshot has a totals row (more than one row, last row
with a balance cell) whose balance cell parses after normalization, the
run agrees — returns normally with the id list — exactly when the
computed sum is within 0.01 of the totals value, and signals
disagreement (the failed `assert`) exactly otherwise; when there is no
totals row (at most one row) the run returns normally with no expected
total ever parsed — vacuous agreement. -/
theorem C1_agreement_tolerance :
    (∀ (rows : List (List String)) (c0 c1 : String) (rest : List String)
        (t : ℚ) (nums : List ℚ),
      1 < rows.length →
      rows.getLast? = some (c0 :: c1 :: rest) →
      pyFloat? (stripMoney c1) = some t →
      numeric_values rows = Except.ok nums →
      ((calculations rows = Except.ok (account_ids rows) ↔ |nums.sum - t| < 1 / 100)
        ∧ (calculations rows = Except.error PyErr.assertionError ↔
            ¬ |nums.sum - t| < 1 / 100)))
    ∧ (∀ rows : List (List String), rows.length ≤ 1 →
        calculations rows = Except.ok (account_ids rows)) := by
  constructor
  · intro rows c0 c1 rest t nums hlen hlast ht hnums
    have hc := calculations_check rows c0 c1 rest t nums hlen hlast ht hnums
    by_cases htol : |nums.sum - t| < 1 / 100 <;> simp [hc, htol]
  · exact calculations_short

/-- Witness for C1 at the concrete snapshot
`[["1","2.00"],["Total","2.00"]]`. -/
theorem C1_agreement_tolerance_witness :
    calculations [["1", "2.00"], ["Total", "2.00"]] =
      Except.ok (account_ids [["1", "2.00"], ["Total", "2.00"]]) := by
  have h := (C1_agreement_tolerance.1 [["1", "2.00"], ["Total", "2.00"]]
    "Total" "2.00" [] (((2 : Nat) : ℚ) + ((0 : Nat) : ℚ) / (10 : ℚ) ^ 2)
    [(((2 : Nat) : ℚ) + ((0 : Nat) : ℚ) / (10 : ℚ) ^ 2)]
    (by decide) (by decide) rfl rfl).1
  apply h.mpr
  simp

/-- C5: `transfer_funds` selects the first two identifiers in list
order when at least two are on hand; with fewer than two it invokes the
recovery callback once and re-checks its result, selecting that
result's first two identifiers, and reports `needsMoreAccounts` (no
transfer) when the recovered list still has fewer than two. -/
theorem C5_transfer_policy :
    (∀ (r : Unit → List String) (a b : String) (rest : List String),
        transfer_funds (a :: b :: rest) r = TransferPlan.transfer a b)
    ∧ (∀ (ids : List String) (r : Unit → List String) (a b : String)
          (rest : List String),
        ids.length < 2 → r () = a :: b :: rest →
        transfer_funds ids r = TransferPlan.transfer a b)
    ∧ (∀ (ids : List String) (r : Unit → List String),
        ids.length < 2 → (r ()).length < 2 →
        transfer_funds ids r = TransferPlan.needsMoreAccounts) := by
  refine ⟨?_, ?_, ?_⟩
  · intro r a b rest
    have hlen : ¬ (a :: b :: rest).length < 2 := by simp
    simp [transfer_funds, hlen]
  · intro ids r a b rest hlen hr
    have h2 : ¬ (r ()).length < 2 := by rw [hr]; simp
    simp [transfer_funds, hlen, hr]
  · intro ids r hlen h2
    simp [transfer_funds, hlen, h2]

/-- Witness for C5: one identifier on hand, recovery yields two. -/
theorem C5_transfer_policy_witness :
    transfer_funds ["9999"] (fun _ => ["12345", "54321"]) =
      TransferPlan.transfer "12345" "54321" :=
  C5_transfer_policy.2.1 ["9999"] (fun _ => ["12345", "54321"]) "12345" "54321" []
    (by decide) rfl

/-- C7: the empty snapshot is valid (empty id list, no totals check); a
single-row snapshot has no totals row — no sum-versus-total comparison
is run and its row is still a data row whose digit identifier is
collected; only with more than one row is the last row used as the
totals row, its balance cell supplying the expected total compared
against the sum. -/
theorem C7_partition :
    calculations [] = Except.ok []
    ∧ (∀ r : List String, calculations [r] = Except.ok (account_ids [r]))
    ∧ (∀ (c0 : String) (cs : List String), pyIsDigit c0 = true →
        calculations [c0 :: cs] = Except.ok [c0])
    ∧ (∀ (rows : List (List String)) (c0 c1 : String) (rest : List String)
          (t : ℚ) (nums : List ℚ),
        1 < rows.length →
        rows.getLast? = some (c0 :: c1 :: rest) →
        pyFloat? (stripMoney c1) = some t →
        numeric_values rows = Except.ok nums →
        (calculations rows = Except.ok (account_ids rows) ↔
          |nums.sum - t| < 1 / 100)) := by
  refine ⟨rfl, ?_, ?_, ?_⟩
  · intro r
    exact calculations_short [r] (by simp)
  · intro c0 cs hd
    rw [calculations_short [c0 :: cs] (by simp), account_ids_eq_allRows]
    simp [allRowsIdentifierList, hd]
  · intro rows c0 c1 rest t nums hlen hlast ht hnums
    have hc := calculations_check rows c0 c1 rest t nums hlen hlast ht hnums
    by_cases htol : |nums.sum - t| < 1 / 100 <;> simp [hc, htol]

/-- Witness for C7: the spec's own single-row example — no totals row,
vacuous agreement, identifier still collected. -/
theorem C7_partition_witness :
    calculations [["1001", "\u00A0"]] = Except.ok ["1001"] :=
  C7_partition.2.2.1 "1001" ["\u00A0"] (by decide)

/-- C9: `load_demo_credentials` is total over every modelled
file-system outcome — missing file, raising read/parse, malformed JSON,
or a credentials dict without truthy username/password — always
returning non-empty username and password strings, with the fallback
`john`/`demo` in every non-valid case. -/
theorem C9_load_demo_credentials_total :
    (∀ o : FsOutcome, (load_demo_credentials o).username ≠ ""
        ∧ (load_demo_credentials o).password ≠ "")
    ∧ load_demo_credentials FsOutcome.missing = ⟨"john", "demo"⟩
    ∧ load_demo_credentials FsOutcome.raisesEarly = ⟨"john", "demo"⟩
    ∧ (∀ kvs : List (String × PyVal),
        pyTruthyOpt (jsonGet kvs "username") = false ∨
          pyTruthyOpt (jsonGet kvs "password") = false →
        load_demo_credentials (FsOutcome.loaded (PyVal.pobj kvs)) =
          ⟨"john", "demo"⟩) := by
  have hdefault : ("john" : String) ≠ "" ∧ ("demo" : String) ≠ "" := by
    constructor <;> decide
  refine ⟨?_, rfl, rfl, ?_⟩
  · intro o
    cases o with
    | missing => exact hdefault
    | raisesEarly => exact hdefault
    | loaded v =>
      cases v with
      | pobj kvs =>
        simp only [load_demo_credentials]
        by_cases hcond : (pyTruthyOpt (jsonGet kvs "username") &&
            pyTruthyOpt (jsonGet kvs "password")) = true
        · rw [if_pos hcond]
          rw [Bool.and_eq_true] at hcond
          obtain ⟨hu, hp⟩ := hcond
          constructor
          · cases hju : jsonGet kvs "username" with
            | none => rw [hju] at hu; simp [pyTruthyOpt] at hu
            | some w =>
              rw [hju] at hu
              simp only [hju, Option.getD_some]
              exact string_ne_empty_of_data _ (pyStr_data_ne_nil w hu)
          · cases hjp : jsonGet kvs "password" with
            | none => rw [hjp] at hp; simp [pyTruthyOpt] at hp
            | some w =>
              rw [hjp] at hp
              simp only [hjp, Option.getD_some]
              exact string_ne_empty_of_data _ (pyStr_data_ne_nil w hp)
        · rw [if_neg hcond]
          exact hdefault
      | pnone => exact hdefault
      | pbool b => exact hdefault
      | pnum q => exact hdefault
      | pstr s => exact hdefault
      | parr xs => exact hdefault
  · intro kvs h
    rcases h with h | h <;> simp [load_demo_credentials, h]

/-- Witness for C9: a credentials dict lacking a password falls back to
the defaults. -/
theorem C9_load_demo_credentials_witness :
    load_demo_credentials (FsOutcome.loaded
        (PyVal.pobj [("username", PyVal.pstr "john2")])) = ⟨"john", "demo"⟩ :=
  C9_load_demo_credentials_total.2.2.2 [("username", PyVal.pstr "john2")]
    (Or.inr rfl)

/-- C10: `pay_bill` with an empty account list performs no page
interaction at all — no form field is filled and no payment is
submitted, whatever the phone-field situation would have been. -/
theorem C10_pay_bill_empty :
    ∀ phone : PhoneFieldOutcome, pay_bill [] phone = [] := by
  intro phone
  rfl


/-- C2 counterexample: at the snapshot with rows `["1","2.00"]` and
`["Total","(nbsp)"]` the totals row's balance cell is the placeholder
and is filtered out *before* the `[:-1]` slice, so the slice drops the
data cell `"2.00"` instead of the totals cell: the code parses nothing
(sum 0) while the claim's data-row sum is 2. -/
theorem C2_counterexample :
    numeric_values [["1", "2.00"], ["Total", "\u00A0"]] = Except.ok []
    ∧ List.sum ([] : List ℚ) = 0
    ∧ claimBalanceSum [["1", "2.00"], ["Total", "\u00A0"]] = 2
    ∧ (0 : ℚ) ≠ 2 := by
  refine ⟨rfl, rfl, ?_, by norm_num⟩
  have h : claimBalanceSum [["1", "2.00"], ["Total", "\u00A0"]] =
      List.sum [((2 : Nat) : ℚ) + ((0 : Nat) : ℚ) / (10 : ℚ) ^ 2] := rfl
  rw [h]
  simp

/-- C2 amended: whenever the balance parse raises no error, the
computed sum ranges over all but the *last element of the filtered
cell list* — which is the totals row's cell when that cell survives the
placeholder filter, but a data cell when the totals cell is the
placeholder, the word `Total`, or absent (and the only cell of a
single-row snapshot) — with `$` and `,` stripped before parsing and
guard-failing cells silently excluded (a guard-passing cell with a
second decimal point instead raises `ValueError`, the no-error case
assumed here). -/
theorem C2_amended_sum (rows : List (List String)) (nums : List ℚ)
    (h : numeric_values rows = Except.ok nums) :
    nums.sum = codeBalanceSum rows := by
  unfold numeric_values at h
  rw [parseCells_ok _ _ h]
  rfl

/-- Witness for the amended C2 at a concrete snapshot. -/
theorem C2_amended_sum_witness :
    List.sum [((2 : Nat) : ℚ) + ((0 : Nat) : ℚ) / (10 : ℚ) ^ 2] =
      codeBalanceSum [["1", "2.00"], ["Total", "2.00"]] :=
  C2_amended_sum [["1", "2.00"], ["Total", "2.00"]]
    [((2 : Nat) : ℚ) + ((0 : Nat) : ℚ) / (10 : ℚ) ^ 2] rfl

/-- C3 counterexample: at `[["7","1.00"],["8","1.00"]]` the totals
row's identifier `"8"` is a digit string and the returned list contains
it — the totals row's identifier is *not* excluded unconditionally. -/
theorem C3_counterexample :
    calculations [["7", "1.00"], ["8", "1.00"]] = Except.ok ["7", "8"]
    ∧ claimIdentifierList [["7", "1.00"], ["8", "1.00"]] = ["7"]
    ∧ (["7", "8"] : List String) ≠ ["7"] := by
  refine ⟨?_, by decide, by decide⟩
  have hc := calculations_check [["7", "1.00"], ["8", "1.00"]] "8" "1.00" []
    (((1 : Nat) : ℚ) + ((0 : Nat) : ℚ) / (10 : ℚ) ^ 2)
    [((1 : Nat) : ℚ) + ((0 : Nat) : ℚ) / (10 : ℚ) ^ 2]
    (by decide) (by decide) rfl rfl
  rw [hc, if_pos (by simp)]
  rfl

/-- C3 amended: the identifier list is the digit-string first cells of
*all* rows in input order — the totals row's identifier is excluded
only because `Total` is not a digit string, not unconditionally — and
blank or non-numeric first cells are skipped without aborting the
remaining rows. -/
theorem C3_amended_identifiers (rows : List (List String)) (ids : List String)
    (h : calculations rows = Except.ok ids) :
    ids = allRowsIdentifierList rows := by
  rw [calculations_ok_ids rows ids h, account_ids_eq_allRows]

/-- Witness for the amended C3 at a concrete snapshot. -/
theorem C3_amended_identifiers_witness :
    (["12"] : List String) = allRowsIdentifierList [["12", "x"]] :=
  C3_amended_identifiers [["12", "x"]] ["12"] rfl

/-- C4 counterexample: at `[["1","5.00"],["Total","10.00"]]` the sum
(5) and the stated total (10) disagree beyond tolerance and
`calculations` raises `AssertionError` (the failed `assert` of source
line 122) instead of returning a result carrying a false agreement
flag. -/
theorem C4_counterexample :
    calculations [["1", "5.00"], ["Total", "10.00"]] =
      Except.error PyErr.assertionError := by
  have hc := calculations_check [["1", "5.00"], ["Total", "10.00"]] "Total" "10.00" []
    (((10 : Nat) : ℚ) + ((0 : Nat) : ℚ) / (10 : ℚ) ^ 2)
    [((5 : Nat) : ℚ) + ((0 : Nat) : ℚ) / (10 : ℚ) ^ 2]
    (by decide) (by decide) rfl rfl
  rw [hc, if_neg (by
    simp only [List.sum_cons, List.sum_nil, add_zero]
    rw [not_lt, le_abs]
    norm_num)]

/-- C4 amended: individual cells that fail the digit guard are indeed
skipped without an error, but the reconciliation *can* raise: a
beyond-tolerance mismatch between sum and stated total raises
`AssertionError` — there is no agreement flag in the returned value. -/
theorem C4_amended_raises :
    (∀ (v : String) (cs : List String), pyGuard v = false →
        parseCells (v :: cs) = parseCells cs)
    ∧ (∀ (rows : List (List String)) (c0 c1 : String) (rest : List String)
          (t : ℚ) (nums : List ℚ),
        1 < rows.length →
        rows.getLast? = some (c0 :: c1 :: rest) →
        pyFloat? (stripMoney c1) = some t →
        numeric_values rows = Except.ok nums →
        ¬ |nums.sum - t| < 1 / 100 →
        calculations rows = Except.error PyErr.assertionError) := by
  constructor
  · intro v cs hg
    simp [parseCells, hg]
  · intro rows c0 c1 rest t nums h1 h2 h3 h4 h5
    rw [calculations_check rows c0 c1 rest t nums h1 h2 h3 h4, if_neg h5]

/-- Witness for the amended C4: a malformed cell is skipped silently. -/
theorem C4_amended_raises_witness :
    parseCells ["N/A", "7"] = parseCells ["7"] :=
  C4_amended_raises.1 "N/A" ["7"] (by decide)

/-- C6 counterexample: at `[["1","500.009"],["Total","500.00"]]`
agreement holds; the single balance cell is then changed to
`"499.998"` — a shift of 0.011, more than 0.01 — with the totals row
fixed, yet agreement still holds, because the original slack (0.009)
absorbs part of the shift. -/
theorem C6_counterexample :
    calculations [["1", "500.009"], ["Total", "500.00"]] =
      Except.ok (account_ids [["1", "500.009"], ["Total", "500.00"]])
    ∧ calculations [["1", "499.998"], ["Total", "500.00"]] =
      Except.ok (account_ids [["1", "499.998"], ["Total", "500.00"]])
    ∧ pyFloat? (stripMoney "500.009") =
        some (((500 : Nat) : ℚ) + ((9 : Nat) : ℚ) / (10 : ℚ) ^ 3)
    ∧ pyFloat? (stripMoney "499.998") =
        some (((499 : Nat) : ℚ) + ((998 : Nat) : ℚ) / (10 : ℚ) ^ 3)
    ∧ 1 / 100 <
        |(((499 : Nat) : ℚ) + ((998 : Nat) : ℚ) / (10 : ℚ) ^ 3) -
          (((500 : Nat) : ℚ) + ((9 : Nat) : ℚ) / (10 : ℚ) ^ 3)| := by
  refine ⟨?_, ?_, rfl, rfl, by rw [lt_abs]; norm_num⟩
  · rw [calculations_check [["1", "500.009"], ["Total", "500.00"]] "Total" "500.00" []
      (((500 : Nat) : ℚ) + ((0 : Nat) : ℚ) / (10 : ℚ) ^ 2)
      [((500 : Nat) : ℚ) + ((9 : Nat) : ℚ) / (10 : ℚ) ^ 3]
      (by decide) (by decide) rfl rfl,
      if_pos (by
        simp only [List.sum_cons, List.sum_nil, add_zero]
        rw [abs_lt]
        constructor <;> norm_num)]
  · rw [calculations_check [["1", "499.998"], ["Total", "500.00"]] "Total" "500.00" []
      (((500 : Nat) : ℚ) + ((0 : Nat) : ℚ) / (10 : ℚ) ^ 2)
      [((499 : Nat) : ℚ) + ((998 : Nat) : ℚ) / (10 : ℚ) ^ 3]
      (by decide) (by decide) rfl rfl,
      if_pos (by
        simp only [List.sum_cons, List.sum_nil, add_zero]
        rw [abs_lt]
        constructor <;> norm_num)]

/-- C6 amended: a perturbation of a single balance cell flips agreement
once it is at least 0.02 — agreement only bounds the original slack by
0.01, so a perturbation in (0.01, 0.02) can leave agreement intact: if
a run with a totals row agrees and one data row's guard-passing balance
cell is replaced by another guard-passing cell whose parsed value
differs by at least 0.02, with every other cell and the totals row
unchanged, the perturbed run raises `AssertionError`. -/
theorem C6_amended_perturbation
    (pre mid : List (List String)) (c0 c1 c1' d0 d1 : String)
    (rest drest : List String) (q q' : ℚ) (ids : List String)
    (hq : pyGuard c1 = true) (hq' : pyGuard c1' = true)
    (hqv : pyFloat? (stripMoney c1) = some q)
    (hqv' : pyFloat? (stripMoney c1') = some q')
    (hdelta : 1 / 50 ≤ |q' - q|)
    (hok : calculations (pre ++ (c0 :: c1 :: rest) :: (mid ++ [d0 :: d1 :: drest])) =
        Except.ok ids) :
    calculations (pre ++ (c0 :: c1' :: rest) :: (mid ++ [d0 :: d1 :: drest])) =
      Except.error PyErr.assertionError := by
  have hlen : ∀ x : String,
      1 < (pre ++ (c0 :: x :: rest) :: (mid ++ [d0 :: d1 :: drest])).length := by
    intro x
    simp [List.length_append]
    omega
  have hlast : ∀ x : String,
      (pre ++ (c0 :: x :: rest) :: (mid ++ [d0 :: d1 :: drest])).getLast? =
        some (d0 :: d1 :: drest) := by
    intro x
    rw [show pre ++ (c0 :: x :: rest) :: (mid ++ [d0 :: d1 :: drest]) =
          (pre ++ (c0 :: x :: rest) :: mid) ++ [d0 :: d1 :: drest] from by simp]
    exact List.getLast?_concat _
  obtain ⟨t, nums, ht, hnv, htol⟩ :=
    calculations_ok_inv _ d0 d1 drest ids (hlen c1) (hlast c1) hok
  have hxc1 : ¬(c1 = "Total" ∨ c1 = "\u00A0") := by
    rintro (rfl | rfl) <;> exact absurd hq (by decide)
  have hxc1' : ¬(c1' = "Total" ∨ c1' = "\u00A0") := by
    rintro (rfl | rfl) <;> exact absurd hq' (by decide)
  have hxd1 : ¬(d1 = "Total" ∨ d1 = "\u00A0") := by
    rintro (rfl | rfl)
    · rw [show pyFloat? (stripMoney "Total") = Option.none from rfl] at ht
      exact Option.noConfusion ht
    · rw [show pyFloat? (stripMoney "\u00A0") = Option.none from rfl] at ht
      exact Option.noConfusion ht
  have hmv : ∀ x : String, ¬(x = "Total" ∨ x = "\u00A0") →
      (middle_values
        (pre ++ (c0 :: x :: rest) :: (mid ++ [d0 :: d1 :: drest]))).dropLast =
        middle_values pre ++ x :: middle_values mid := by
    intro x hx
    have h1 : middle_values (pre ++ (c0 :: x :: rest) :: (mid ++ [d0 :: d1 :: drest])) =
        middle_values pre ++ x :: (middle_values mid ++ [d1]) := by
      rw [show pre ++ (c0 :: x :: rest) :: (mid ++ [d0 :: d1 :: drest]) =
            pre ++ ([c0 :: x :: rest] ++ (mid ++ [d0 :: d1 :: drest])) from by simp,
          middle_values_append, middle_values_append, middle_values_append]
      simp [middle_values, hx, hxd1]
    rw [h1, show middle_values pre ++ x :: (middle_values mid ++ [d1]) =
          (middle_values pre ++ x :: middle_values mid) ++ [d1] from by simp,
        List.dropLast_concat]
  unfold numeric_values at hnv
  rw [hmv c1 hxc1] at hnv
  obtain ⟨as, bs, hA, hB, hnums⟩ := parseCells_middle_ok _ _ c1 q nums hq hqv hnv
  subst hnums
  have hnv' : numeric_values
      (pre ++ (c0 :: c1' :: rest) :: (mid ++ [d0 :: d1 :: drest])) =
      Except.ok (as ++ q' :: bs) := by
    unfold numeric_values
    rw [hmv c1' hxc1']
    exact parseCells_middle_mk _ _ c1' q' as bs hq' hqv' hA hB
  have hsum : (as ++ q :: bs).sum = as.sum + q + bs.sum := by
    simp [List.sum_append, List.sum_cons]
    ring
  have hsum' : (as ++ q' :: bs).sum = as.sum + q' + bs.sum := by
    simp [List.sum_append, List.sum_cons]
    ring
  rw [hsum] at htol
  have habs : ∀ X Y : ℚ, |X - Y| ≤ |X| + |Y| := by
    intro X Y
    calc |X - Y| = |X + -Y| := by rw [sub_eq_add_neg]
      _ ≤ |X| + |-Y| := abs_add X (-Y)
      _ = |X| + |Y| := by rw [abs_neg]
  have hkey : ¬ |(as ++ q' :: bs).sum - t| < 1 / 100 := by
    rw [hsum']
    intro hcon
    have htri : |q' - q| ≤
        |as.sum + q' + bs.sum - t| + |as.sum + q + bs.sum - t| := by
      have hqq : q' - q =
          (as.sum + q' + bs.sum - t) - (as.sum + q + bs.sum - t) := by ring
      calc |q' - q| =
            |(as.sum + q' + bs.sum - t) - (as.sum + q + bs.sum - t)| := by rw [← hqq]
        _ ≤ |as.sum + q' + bs.sum - t| + |as.sum + q + bs.sum - t| := habs _ _
    linarith
  rw [calculations_check _ d0 d1 drest t (as ++ q' :: bs) (hlen c1') (hlast c1')
    ht hnv', if_neg hkey]

/-- Witness for the amended C6: a 0.05 perturbation flips agreement. -/
theorem C6_amended_perturbation_witness :
    calculations [["1", "10.05"], ["Total", "10.00"]] =
      Except.error PyErr.assertionError := by
  have hok : calculations [["1", "10.00"], ["Total", "10.00"]] =
      Except.ok (account_ids [["1", "10.00"], ["Total", "10.00"]]) := by
    rw [calculations_check [["1", "10.00"], ["Total", "10.00"]] "Total" "10.00" []
      (((10 : Nat) : ℚ) + ((0 : Nat) : ℚ) / (10 : ℚ) ^ 2)
      [((10 : Nat) : ℚ) + ((0 : Nat) : ℚ) / (10 : ℚ) ^ 2]
      (by decide) (by decide) rfl rfl, if_pos (by simp)]
  exact C6_amended_perturbation [] [] "1" "10.00" "10.05" "Total" "10.00" [] []
    (((10 : Nat) : ℚ) + ((0 : Nat) : ℚ) / (10 : ℚ) ^ 2)
    (((10 : Nat) : ℚ) + ((5 : Nat) : ℚ) / (10 : ℚ) ^ 2)
    (account_ids [["1", "10.00"], ["Total", "10.00"]])
    (by decide) (by decide) rfl rfl (by rw [le_abs]; norm_num) hok

/-- C8 counterexample: for a last link containing `id=` twice,
`split("id=")[1]` yields only the segment between the first and second
occurrences (`"12"`), not the substring following `id=`
(`"12id=34"`). -/
theorem C8_counterexample :
    create_savings_account ["activity.htm?id=12id=34"] = Except.ok "12"
    ∧ substringFollowing "id=" "activity.htm?id=12id=34" = "12id=34"
    ∧ ("12" : String) ≠ "12id=34" := by
  exact ⟨rfl, rfl, by decide⟩

/-- C8 amended: `create_savings_account` raises exactly on an empty
link list; for a non-empty list it returns field 1 of the last link
split on `id=` — the substring following the *first* `id=` truncated at
the next occurrence — which is `""` exactly when the last link does not
contain `id=`. -/
theorem C8_amended_extraction :
    (∀ links : List String,
        create_savings_account links = Except.error PyErr.exception ↔ links = [])
    ∧ (∀ (links : List String) (last_link : String),
        links.getLast? = some last_link →
        create_savings_account links =
          Except.ok ((pySplit "id=" last_link).getD 1 "")) := by
  constructor
  · intro links
    constructor
    · intro h
      cases hl : links.getLast? with
      | none =>
        cases links with
        | nil => rfl
        | cons a l => simp at hl
      | some l =>
        simp only [create_savings_account, hl] at h
        simp at h
    · rintro rfl
      rfl
  · intro links last_link hl
    simp only [create_savings_account, hl]
    by_cases hin : pyIn "id=" last_link = true
    · rw [if_pos hin]
    · rw [if_neg hin]
      have hlen2 : (pySplit "id=" last_link).length ≤ 1 := by
        simp only [pyIn, decide_eq_true_eq] at hin
        omega
      rw [List.getD_eq_default _ _ hlen2]

/-- Witness for the amended C8 at a single well-formed link. -/
theorem C8_amended_extraction_witness :
    create_savings_account ["activity.htm?id=13344"] =
      Except.ok ((pySplit "id=" "activity.htm?id=13344").getD 1 "") :=
  C8_amended_extraction.2 ["activity.htm?id=13344"] "activity.htm?id=13344" rfl

end ParaBank
